import Mathlib

/-!
Verification of `src/aemet_temperaturas.py` (AEMET daily temperature
collector) against its natural-language specification.

The script is shallowly embedded: JSON/Python values are modelled by the
inductive `PyVal`, Python exceptions by `PyErr` inside `Except`, and each
relevant function of the source is translated line by line.  I/O (HTTP
responses, file contents, the current date) is passed in explicitly as
parameters or oracles, since the script only consumes those effects.
-/

namespace Aemet

/-- A JSON-shaped Python value, as produced by `json.loads` and handled by
the script.  Numbers are modelled as integers: every numeric field the
script touches (`estado`, populations, altitudes, temperatures) is integral
in the AEMET payloads, and the script coerces temperatures with `int()`. -/
inductive PyVal where
  | none
  | int (n : Int)
  | str (s : String)
  | bool (b : Bool)
  | list (xs : List PyVal)
  | dict (kvs : List (String × PyVal))
  deriving Repr

/-- The Python exception classes the script can raise or catch. -/
inductive PyErr where
  | attributeError
  | typeError
  | indexError
  | keyError
  | valueError
  | jsonDecodeError
  deriving DecidableEq, Repr

/-- Python truthiness (`if x:`). -/
def truthy : PyVal → Bool
  | .none => false
  | .int n => n != 0
  | .str s => !s.isEmpty
  | .bool b => b
  | .list xs => !xs.isEmpty
  | .dict kvs => !kvs.isEmpty

/-- `v is None`. -/
def PyVal.isNone : PyVal → Bool
  | .none => true
  | _ => false

/-- Python `==` as exercised by the script: every comparison in the source
has a string or integer constant on one side (`fecha == objetivo`,
`estado != 200`, `descripcion == "Máxima"`, ...), so only the scalar cases
can come out true; comparing two containers never happens and is modelled
by the catch-all. `True == 1` holds in Python, hence the bool/int cases. -/
def pyEq : PyVal → PyVal → Bool
  | .none, .none => true
  | .int m, .int n => m == n
  | .bool a, .bool b => a == b
  | .int m, .bool b => m == (if b then (1 : Int) else 0)
  | .bool b, .int m => (if b then (1 : Int) else 0) == m
  | .str s, .str t => s == t
  | _, _ => false

/-- `d.get(k, default)`: total on dicts, `AttributeError` on anything else
(only dicts have a `.get` attribute). -/
def dictGet (v : PyVal) (k : String) (dflt : PyVal) : Except PyErr PyVal :=
  match v with
  | .dict kvs => .ok ((kvs.lookup k).getD dflt)
  | _ => .error .attributeError

/-- `d.get(k)` with no default (`None` when the key is missing). -/
def dictGet1 (v : PyVal) (k : String) : Except PyErr PyVal :=
  dictGet v k .none

/-- `v[0]`: head of a list (`IndexError` when empty), first character of a
string, `KeyError` on a dict (the script's dicts have string keys, so the
integer key `0` is never present), `TypeError` otherwise. -/
def pyIndex0 : PyVal → Except PyErr PyVal
  | .list [] => .error .indexError
  | .list (x :: _) => .ok x
  | .str s =>
    match s.data with
    | [] => .error .indexError
    | c :: _ => .ok (.str (String.mk [c]))
  | .dict _ => .error .keyError
  | _ => .error .typeError

/-- `v[:10]`: slicing works on strings and lists, raises `TypeError`
elsewhere. -/
def pySlice10 : PyVal → Except PyErr PyVal
  | .str s => .ok (.str (String.mk (s.data.take 10)))
  | .list xs => .ok (.list (xs.take 10))
  | _ => .error .typeError

/-- `for x in v`: lists yield their elements, strings their characters,
dicts their keys; other values raise `TypeError`. -/
def pyIter : PyVal → Except PyErr (List PyVal)
  | .list xs => .ok xs
  | .str s => .ok (s.data.map fun c => .str (String.mk [c]))
  | .dict kvs => .ok (kvs.map fun kv => .str kv.1)
  | _ => .error .typeError

/-- Whether a character counts as an ASCII decimal digit. -/
def esDigito (c : Char) : Bool := decide ('0' ≤ c) && decide (c ≤ '9')

/-- Digits to a natural number (most significant first). -/
def digitosANat : List Char → Nat → Nat
  | [], acc => acc
  | c :: cs, acc => digitosANat cs (acc * 10 + (c.toNat - '0'.toNat))

/-- Python whitespace stripping (`str.strip()`). -/
def recortar (s : String) : String :=
  String.mk (((s.data.dropWhile Char.isWhitespace).reverse.dropWhile
    Char.isWhitespace).reverse)

/-- `int(s)` on a string: optional surrounding whitespace, optional sign,
one or more digits; anything else raises `ValueError`. -/
def parseEnt (s : String) : Option Int :=
  let t := (recortar s).data
  let nucleo : List Char → Option Int := fun ds =>
    if ds.isEmpty || !(ds.all esDigito) then Option.none
    else Option.some (Int.ofNat (digitosANat ds 0))
  match t with
  | '+' :: resto => nucleo resto
  | '-' :: resto => (nucleo resto).map (fun n => -n)
  | resto => nucleo resto

/-- `int(v)`: integers pass through, bools coerce (`int(True) == 1`),
strings are parsed (`ValueError` when malformed), anything else raises
`TypeError`. -/
def pyToInt : PyVal → Except PyErr Int
  | .int n => .ok n
  | .bool b => .ok (if b then 1 else 0)
  | .str s =>
    match parseEnt s with
    | Option.some n => .ok n
    | Option.none => .error .valueError
  | _ => .error .typeError

/-- `a or b` (returns `a` when truthy, else `b`). -/
def pyOr (a b : PyVal) : PyVal := if truthy a then a else b

/-- Python string `<` (lexicographic on code points), written out so the
kernel can evaluate it on literals. -/
def charListLt : List Char → List Char → Bool
  | [], [] => false
  | [], _ :: _ => true
  | _ :: _, [] => false
  | a :: as, b :: bs =>
    if a < b then true else if b < a then false else charListLt as bs

/-- Python `a < b` on strings. -/
def strLt (a b : String) : Bool := charListLt a.data b.data

/-- Python `a <= b` on strings (total order, so `a <= b ↔ ¬ b < a`). -/
def strLe (a b : String) : Bool := !(strLt b a)

/-- Stable insertion step for `ordenarPor`. -/
def insOrd {α : Type} (le : α → α → Bool) (x : α) : List α → List α
  | [] => [x]
  | y :: ys => if le x y then x :: y :: ys else y :: insOrd le x ys

/-- Stable sort modelling Python `sorted` / `list.sort` (with
`reverse=True` expressed by flipping the comparison, which preserves
Python's stable-descending behaviour). -/
def ordenarPor {α : Type} (le : α → α → Bool) : List α → List α
  | [] => []
  | x :: xs => insOrd le x (ordenarPor le xs)

/-! ## Temperature extractor (`_extraer_temp_dia`, lines 206-251) -/

/-- `t.get("valor", t.get("value"))` for one period entry of a list-shaped
temperature block. -/
def valorPeriodo (kvs : List (String × PyVal)) : PyVal :=
  (kvs.lookup "valor").getD ((kvs.lookup "value").getD .none)

/-- The inner `for t in temps` loop of the matched-date branch: an entry
tagged `"Máxima"` (or whose period is `"00-24"`) supplies `t_max`, an entry
tagged `"Mínima"` supplies `t_min`; a non-dict entry raises
`AttributeError` at `t.get`, which the source does not catch. -/
def bucleTemps : List PyVal → PyVal → PyVal → Except PyErr (PyVal × PyVal)
  | [], t_min, t_max => .ok (t_min, t_max)
  | t :: resto, t_min, t_max =>
    match t with
    | .dict kvs =>
      let desc := (kvs.lookup "descripcion").getD .none
      let periodo := (kvs.lookup "periodo").getD .none
      let t_max' :=
        if pyEq desc (.str "Máxima") || pyEq periodo (.str "00-24") then
          valorPeriodo kvs
        else t_max
      let t_min' :=
        if pyEq desc (.str "Mínima") then valorPeriodo kvs else t_min
      bucleTemps resto t_min' t_max'
    | _ => .error .attributeError

/-- The `for dia in dias` loop: finds the first day entry whose
`fecha[:10]` equals the target date, reads its temperature block (a direct
`{min,max}` dict, or a list of period entries) and breaks; a matched block
of any other shape breaks with nothing set.  Returns `(t_min, t_max)` as
left by the loop. -/
def buscarDia (objetivo : String) : List PyVal → Except PyErr (PyVal × PyVal)
  | [] => .ok (.none, .none)
  | dia :: resto =>
    match dictGet dia "fecha" (.str "") with
    | .error e => .error e
    | .ok fechaCruda =>
      match pySlice10 fechaCruda with
      | .error e => .error e
      | .ok fechaDia =>
        if pyEq fechaDia (.str objetivo) then
          match dictGet dia "temperatura" (.dict []) with
          | .error e => .error e
          | .ok (.dict kvs) =>
            .ok ((kvs.lookup "minima").getD .none,
                 (kvs.lookup "maxima").getD .none)
          | .ok (.list ts) => bucleTemps ts .none .none
          | .ok _ => .ok (.none, .none)
        else
          buscarDia objetivo resto

/-- The `# Si no encontramos la fecha, tomar el primer día` fallback:
re-reads `dias[0]` and its temperature block, but only the dict-shaped
(`isinstance(temps, dict)`) case assigns anything. -/
def primerDiaFallback (diasVal : PyVal) : Except PyErr (PyVal × PyVal) :=
  match pyIndex0 diasVal with
  | .error e => .error e
  | .ok dia =>
    match dictGet dia "temperatura" (.dict []) with
    | .error e => .error e
    | .ok (.dict kvs) =>
      .ok ((kvs.lookup "minima").getD .none, (kvs.lookup "maxima").getD .none)
    | .ok _ => .ok (.none, .none)

/-- Lines 231-236 applied to the day loop's outcome: when both values are
still `None` and `dias` is truthy, run the first-day fallback. -/
def trasBusqueda (diasVal : PyVal) :
    Except PyErr (PyVal × PyVal) → Except PyErr (PyVal × PyVal)
  | .error e => .error e
  | .ok (t_min, t_max) =>
    if t_min.isNone && t_max.isNone && truthy diasVal then
      primerDiaFallback diasVal
    else
      .ok (t_min, t_max)

/-- The whole `try:` block of `_extraer_temp_dia` (lines 211-237). -/
def bloqueEstructural (datos : PyVal) (objetivo : String) :
    Except PyErr (PyVal × PyVal) :=
  match pyIndex0 datos with
  | .error e => .error e
  | .ok d0 =>
    match dictGet d0 "prediccion" (.dict []) with
    | .error e => .error e
    | .ok prediccion =>
      match dictGet prediccion "dia" (.list []) with
      | .error e => .error e
      | .ok diasVal =>
        match pyIter diasVal with
        | .error e => .error e
        | .ok dias => trasBusqueda diasVal (buscarDia objetivo dias)

/-- The `# Convertir a int` section: `int()` with
`except (ValueError, TypeError): pass` — on failure the variable keeps its
previous (uncoerced) value. -/
def coerceInt (v : PyVal) : PyVal :=
  match v with
  | .none => .none
  | _ =>
    match pyToInt v with
    | .ok n => .int n
    | .error _ => v

/-- The `except (IndexError, KeyError, TypeError): pass` recovery (leaving
both values `None`) followed by the int coercion of each component; other
exceptions propagate. -/
def conCoercion : Except PyErr (PyVal × PyVal) → Except PyErr (PyVal × PyVal)
  | .ok (t_min, t_max) => .ok (coerceInt t_min, coerceInt t_max)
  | .error .indexError => .ok (.none, .none)
  | .error .keyError => .ok (.none, .none)
  | .error .typeError => .ok (.none, .none)
  | .error e => .error e

/-- `_extraer_temp_dia(datos, fecha_objetivo)`: the structural block with
its `try/except` recovery and the int coercion.  Any exception outside the
caught classes (notably `AttributeError` from `.get` on a non-dict)
escapes to the caller. -/
def extraer_temp_dia (datos : PyVal) (objetivo : String) :
    Except PyErr (PyVal × PyVal) :=
  conCoercion (bloqueEstructural datos objetivo)

/-- A forecast payload wrapping the given day entries (the shape the AEMET
endpoint returns: a one-element list whose head holds `prediccion.dia`). -/
def cargaDe (dias : List PyVal) : PyVal :=
  .list [.dict [("prediccion", .dict [("dia", .list dias)])]]

/-- Day entry dated 2024-01-02 with a direct `{min,max}` temperature
block (min 10, max 20). -/
def diaEj1 : PyVal :=
  .dict [("fecha", .str "2024-01-02T00:00:00"),
         ("temperatura", .dict [("maxima", .int 20), ("minima", .int 10)])]

/-- Day entry dated 2024-01-03 with a direct block (min 12, max 25). -/
def diaEj2 : PyVal :=
  .dict [("fecha", .str "2024-01-03T00:00:00"),
         ("temperatura", .dict [("maxima", .int 25), ("minima", .int 12)])]

/-- Day entry dated 2024-01-02 whose temperature block is the
list-of-periods shape (Máxima 20, Mínima 10). -/
def diaPeriodos : PyVal :=
  .dict [("fecha", .str "2024-01-02T00:00:00"),
         ("temperatura",
          .list [.dict [("descripcion", .str "Máxima"), ("valor", .int 20)],
                 .dict [("descripcion", .str "Mínima"), ("valor", .int 10)]])]

/-- Day entry whose max temperature is an uncoercible string. -/
def diaValorMalo : PyVal :=
  .dict [("fecha", .str "2024-01-01"),
         ("temperatura", .dict [("maxima", .str "frío")])]

/-- A day entry that the date-matching loop inspects and passes over: a
dict whose `fecha` (default `""`) is a string whose 10-character prefix
differs from the target. -/
def diaNoCoincide (objetivo : String) (dia : PyVal) : Prop :=
  ∃ kvs s, dia = PyVal.dict kvs
    ∧ ((kvs.lookup "fecha").getD (.str "")) = .str s
    ∧ String.mk (s.data.take 10) ≠ objetivo

/-! ## Remote data client (`aemet_request`, lines 103-144)

The HTTP world is an oracle per attempt: `primero i` is the outcome of the
first-hop `requests.get` on attempt `i`, `segundo i` the outcome of the
data-URL `requests.get` on the same attempt.  `time.sleep` calls are
recorded in order (in seconds). -/

/-- Outcome of one `requests.get`: a network-level failure
(`requests.RequestException`), or a response with a status code and —
relevant only for status 200 — a decoded JSON body (`Option.none` body =
`resp.json()` raises `json.JSONDecodeError`). -/
inductive HttpOutcome where
  | netFail
  | response (codigo : Nat) (cuerpo : Option PyVal)
  deriving Repr

/-- What one call to `aemet_request` did: its return value (`.ok
Option.none` = the Python `None` failure signal, `.error e` = an uncaught
exception), the sleeps it performed, and how many loop attempts ran. -/
structure ResultadoPeticion where
  resultado : Except PyErr (Option PyVal)
  pausas : List Nat
  intentos : Nat
  deriving Repr

/-- The `for attempt in range(max_retries)` loop of `aemet_request`, with
`restantes` the attempts still available (`intento + restantes` is the
retry ceiling).  Mirrors lines 108-144: 429 backs off `30*(attempt+1)` and
retries; any other non-200 or a JSON decode failure returns `None` at
once; a `RequestException` (either hop, or a non-string data URL) sleeps 5
seconds and retries while attempts remain; a decoded first-hop envelope
that is not a dict raises `AttributeError` at `meta.get`. -/
def buclePeticion (primero segundo : Nat → HttpOutcome) :
    Nat → Nat → List Nat → ResultadoPeticion
  | intento, 0, pausas => ⟨.ok Option.none, pausas.reverse, intento⟩
  | intento, restantes + 1, pausas =>
    match primero intento with
    | .netFail =>
      if restantes = 0 then ⟨.ok Option.none, pausas.reverse, intento + 1⟩
      else buclePeticion primero segundo (intento + 1) restantes (5 :: pausas)
    | .response codigo cuerpo =>
      if codigo = 429 then
        buclePeticion primero segundo (intento + 1) restantes
          ((30 * (intento + 1)) :: pausas)
      else if codigo ≠ 200 then ⟨.ok Option.none, pausas.reverse, intento + 1⟩
      else
        match cuerpo with
        | Option.none => ⟨.ok Option.none, pausas.reverse, intento + 1⟩
        | Option.some meta =>
          match meta with
          | .dict kvs =>
            if !pyEq ((kvs.lookup "estado").getD .none) (.int 200) then
              ⟨.ok Option.none, pausas.reverse, intento + 1⟩
            else
              let datosUrl := (kvs.lookup "datos").getD .none
              if !truthy datosUrl then
                ⟨.ok Option.none, pausas.reverse, intento + 1⟩
              else
                match datosUrl with
                | .str _ =>
                  match segundo intento with
                  | .netFail =>
                    if restantes = 0 then
                      ⟨.ok Option.none, pausas.reverse, intento + 1⟩
                    else
                      buclePeticion primero segundo (intento + 1) restantes
                        (5 :: pausas)
                  | .response codigo2 cuerpo2 =>
                    if codigo2 ≠ 200 then
                      ⟨.ok Option.none, pausas.reverse, intento + 1⟩
                    else
                      match cuerpo2 with
                      | Option.none =>
                        ⟨.ok Option.none, pausas.reverse, intento + 1⟩
                      | Option.some carga =>
                        ⟨.ok (Option.some carga), pausas.reverse, intento + 1⟩
                | _ =>
                  -- `requests.get` on a non-string URL raises inside the
                  -- `try`, caught as a `RequestException`-style failure
                  if restantes = 0 then
                    ⟨.ok Option.none, pausas.reverse, intento + 1⟩
                  else
                    buclePeticion primero segundo (intento + 1) restantes
                      (5 :: pausas)
          | _ => ⟨.error .attributeError, pausas.reverse, intento + 1⟩

/-- `aemet_request(endpoint, api_key, max_retries=3)`. -/
def aemet_request (primero segundo : Nat → HttpOutcome)
    (max_retries : Nat := 3) : ResultadoPeticion :=
  buclePeticion primero segundo 0 max_retries []

/-- An HTTP outcome whose decoded 200 envelope (if any) is a JSON object —
the shape `meta.get("estado")` silently assumes. -/
def sobreEsDict : HttpOutcome → Prop
  | .response 200 (Option.some m) => ∃ kvs, m = PyVal.dict kvs
  | _ => True

/-! ## Municipality directory (`obtener_municipios`, lines 147-203) -/

/-- The `PROVINCIAS` table (province code to province name). -/
def PROVINCIAS : List (String × String) :=
  [("01", "Álava"), ("02", "Albacete"), ("03", "Alicante"), ("04", "Almería"),
   ("05", "Ávila"), ("06", "Badajoz"), ("07", "Baleares"), ("08", "Barcelona"),
   ("09", "Burgos"), ("10", "Cáceres"), ("11", "Cádiz"), ("12", "Castellón"),
   ("13", "Ciudad Real"), ("14", "Córdoba"), ("15", "A Coruña"), ("16", "Cuenca"),
   ("17", "Girona"), ("18", "Granada"), ("19", "Guadalajara"), ("20", "Gipuzkoa"),
   ("21", "Huelva"), ("22", "Huesca"), ("23", "Jaén"), ("24", "León"),
   ("25", "Lleida"), ("26", "La Rioja"), ("27", "Lugo"), ("28", "Madrid"),
   ("29", "Málaga"), ("30", "Murcia"), ("31", "Navarra"), ("32", "Ourense"),
   ("33", "Asturias"), ("34", "Palencia"), ("35", "Las Palmas"), ("36", "Pontevedra"),
   ("37", "Salamanca"), ("38", "S.C. Tenerife"), ("39", "Cantabria"), ("40", "Segovia"),
   ("41", "Sevilla"), ("42", "Soria"), ("43", "Tarragona"), ("44", "Teruel"),
   ("45", "Toledo"), ("46", "Valencia"), ("47", "Valladolid"), ("48", "Bizkaia"),
   ("49", "Zamora"), ("50", "Zaragoza"), ("51", "Ceuta"), ("52", "Melilla")]

/-- The `CAPITALES_CODIGOS` set (INE codes of province capitals). -/
def CAPITALES_CODIGOS : List String :=
  ["15030", "02003", "03014", "04013", "01059", "33044", "05019", "06015",
   "07040", "08019", "48020", "09059", "10037", "11012", "39075", "12040",
   "51001", "13034", "14021", "16078", "20069", "17079", "18087", "19130",
   "21041", "22125", "23050", "24089", "25120", "27028", "28079", "29067",
   "52001", "30030", "31201", "32054", "34120", "35016", "36038", "26089",
   "37274", "38038", "40194", "41091", "42173", "43148", "44216", "45168",
   "46250", "47186", "49275", "50297"]

/-- One municipality as grouped by `obtener_municipios` (the dict built at
lines 182-188).  `nombre` stays a raw payload value — the source stores
`mun.get("nombre", "")` without inspecting it. -/
structure Municipio where
  codigo : String
  nombre : PyVal
  habitantes : Int
  altitud : Int
  es_capital : Bool
  deriving Repr

/-- `mun_id.startswith("id")`. -/
def empiezaConId (s : String) : Bool :=
  match s.data with
  | 'i' :: 'd' :: _ => true
  | _ => false

/-- `s[2:]` on a string. -/
def strDesde2 (s : String) : String := String.mk (s.data.drop 2)

/-- `s[:2]` on a string. -/
def strHasta2 (s : String) : String := String.mk (s.data.take 2)

/-- `provincias[nombre_prov].append(m)` over a `defaultdict(list)`
(insertion order of first appearance is preserved, as in Python). -/
def anotarEnProvincia (prov : String) (m : Municipio) :
    List (String × List Municipio) → List (String × List Municipio)
  | [] => [(prov, [m])]
  | (p, ms) :: resto =>
    if p = prov then (p, ms ++ [m]) :: resto
    else (p, ms) :: anotarEnProvincia prov m resto

/-- The grouping loop of `obtener_municipios` (lines 173-188): skips
entries whose id does not start with `"id"`, derives the province from the
first two digits of the code, coerces population and altitude with
`int(... or "0")` (whose `ValueError`/`TypeError` is *not* caught here),
and flags capitals by membership in `CAPITALES_CODIGOS`. -/
def agrupaMunicipios : List PyVal → List (String × List Municipio) →
    Except PyErr (List (String × List Municipio))
  | [], acc => .ok acc
  | mun :: resto, acc => do
    let munId ← dictGet mun "id" (.str "")
    match munId with
    | .str s =>
      if empiezaConId s then
        let codCompleto := strDesde2 s
        let codProv := strHasta2 codCompleto
        let nombreProv := (PROVINCIAS.lookup codProv).getD
          ("Provincia " ++ codProv)
        let nombre ← dictGet mun "nombre" (.str "")
        let habCrudo ← dictGet mun "num_hab" (.str "0")
        let habitantes ← pyToInt (pyOr habCrudo (.str "0"))
        let altCrudo ← dictGet mun "altitud" (.str "0")
        let altitud ← pyToInt (pyOr altCrudo (.str "0"))
        let m : Municipio :=
          { codigo := codCompleto, nombre := nombre, habitantes := habitantes,
            altitud := altitud,
            es_capital := CAPITALES_CODIGOS.contains codCompleto }
        agrupaMunicipios resto (anotarEnProvincia nombreProv m acc)
      else
        agrupaMunicipios resto acc
    | _ => .error .attributeError   -- `.startswith` on a non-string id

/-- A grouped municipality back to the dict the script serializes. -/
def municipioToPy (m : Municipio) : PyVal :=
  .dict [("codigo", .str m.codigo), ("nombre", m.nombre),
         ("habitantes", .int m.habitantes), ("altitud", .int m.altitud),
         ("es_capital", .bool m.es_capital)]

/-- Grouping plus the per-province population-descending stable sort
(lines 190-192) and conversion back to the serialized `provincias` dict. -/
def agrupaYOrdena (datos : List PyVal) : Except PyErr PyVal := do
  let grupos ← agrupaMunicipios datos []
  let ordenados := grupos.map fun pm =>
    (pm.1, ordenarPor (fun a b => b.habitantes ≤ a.habitantes) pm.2)
  .ok (.dict (ordenados.map fun pm => (pm.1, .list (pm.2.map municipioToPy))))

/-- The fetch-or-stale-cache tail of `obtener_municipios` (lines 162-203):
`datos` is what `aemet_request` returned (`PyVal.none` = `None`).  When
the fetch fails, the stale cache file is re-read with a *bare*
`json.loads` — a malformed cache file raises `json.JSONDecodeError` here,
and a cache that parses to a non-dict raises `AttributeError` at `.get`.
The cache-write side effect is dropped (nothing in the script reads it
back within a run). -/
def municipiosTrasFetch (cacheFichero : Option (Option PyVal))
    (datos : PyVal) : Except PyErr PyVal :=
  if truthy datos then
    match pyIter datos with   -- `for mun in datos`
    | .ok xs => agrupaYOrdena xs
    | .error e => .error e
  else
    match cacheFichero with
    | Option.some (Option.some cache) =>
      match cache with
      | .dict kvs => .ok ((kvs.lookup "provincias").getD (.dict []))
      | _ => .error .attributeError
    | Option.some Option.none => .error .jsonDecodeError
    | Option.none => .ok (.dict [])

/-- `obtener_municipios(api_key)`.  `cacheFichero` models the cache file:
`Option.none` = no file, `Option.some Option.none` = the file exists but
`json.loads` fails on it, `Option.some (Option.some v)` = it parses to
`v`.  `hoy` is `datetime.now().strftime("%Y-%m-%d")` and `datos` the
result of the `/maestro/municipios` request.  The fresh-cache check wraps
only the first read in `try: ... except (JSONDecodeError, KeyError)`. -/
def obtener_municipios (cacheFichero : Option (Option PyVal)) (hoy : String)
    (datos : PyVal) : Except PyErr PyVal :=
  match cacheFichero with
  | Option.some (Option.some cache) =>
    match cache with
    | .dict kvs =>
      if pyEq ((kvs.lookup "fecha").getD .none) (.str hoy) then
        match kvs.lookup "provincias" with
        | Option.some v => .ok v
        | Option.none => municipiosTrasFetch cacheFichero datos  -- KeyError caught
      else municipiosTrasFetch cacheFichero datos
    | _ => .error .attributeError   -- `cache.get` on a non-dict parse result
  | Option.some Option.none => municipiosTrasFetch cacheFichero datos
  | Option.none => municipiosTrasFetch cacheFichero datos

/-! ## Collection driver, capitals-only mode
(`obtener_temperaturas_capitales`, lines 363-404)

The per-municipality fetch-and-extract pipeline (`aemet_request` plus
`_extraer_temp_dia`) is abstracted as the oracle `consulta`: for a
municipality code it yields `Option.none` when the request came back falsy
(the driver then emits `(None, None)` without calling the extractor), or
the extracted `(t_min, t_max)` integer pair otherwise.  Sleeps and
progress logging carry no data and are dropped. -/

/-- One entry of the per-province data handed to `guardar_json` (the dict
built at lines 331-340 / 385-394). -/
structure DatoMun where
  municipio : PyVal
  codigo : String
  provincia : String
  habitantes : Int
  es_capital : Bool
  t_min : Option Int
  t_max : Option Int
  fecha : String
  deriving Repr

/-- Lines 371-373: the capitals of a province, falling back to
`municipios[:1]` when none is flagged. -/
def seleccionarCapitales (municipios : List Municipio) : List Municipio :=
  let capitales := municipios.filter (fun m => m.es_capital)
  if capitales.isEmpty then municipios.take 1 else capitales

/-- Lines 377-394: one record of capitals-only mode.  Note the literal
`"es_capital": True`. -/
def construirDatoCapital (consulta : String → Option (Option Int × Option Int))
    (hoy prov : String) (mun : Municipio) : DatoMun :=
  let tm := (consulta mun.codigo).getD (Option.none, Option.none)
  { municipio := mun.nombre, codigo := mun.codigo, provincia := prov,
    habitantes := mun.habitantes, es_capital := true,
    t_min := tm.1, t_max := tm.2, fecha := hoy }

/-- `obtener_temperaturas_capitales(api_key)`: provinces in sorted order
(`sorted(provincias_mun.items())`), one record per selected capital. -/
def obtener_temperaturas_capitales
    (provincias_mun : List (String × List Municipio))
    (consulta : String → Option (Option Int × Option Int)) (hoy : String) :
    List (String × List DatoMun) :=
  (ordenarPor (fun a b => strLe a.1 b.1) provincias_mun).map fun pm =>
    (pm.1, (seleccionarCapitales pm.2).map (construirDatoCapital consulta hoy pm.1))

/-! ## Dataset store (`guardar_json`, lines 407-466)

Dates are ISO `YYYY-MM-DD` strings compared with Python string `>=`
(`strLe` here), exactly as in the source; `hoy` and `fecha_limite` are the
strings the source computes from `datetime.now()` and
`datetime.now() - timedelta(days=dias_retener)`. -/

/-- Round-half-to-even on an exact rational, Python's `round` for values
(like every `(t_min+t_max)/2`) that floats represent exactly. -/
def roundHalfEven (q : ℚ) : Int :=
  let f : Int := ⌊q⌋
  let r : ℚ := q - f
  if r < 1 / 2 then f
  else if 1 / 2 < r then f + 1
  else if f % 2 = 0 then f else f + 1

/-- `round(x, 1)`. -/
def round1 (q : ℚ) : ℚ := (roundHalfEven (10 * q) : ℚ) / 10

/-- Line 436: `media = round((t_min + t_max) / 2, 1) if t_min is not None
and t_max is not None else None`. -/
def mediaDe (t_min t_max : Option Int) : Option ℚ :=
  match t_min, t_max with
  | Option.some mn, Option.some mx => Option.some (round1 ((mn + mx : ℚ) / 2))
  | _, _ => Option.none

/-- One persisted record (the dict built at lines 437-447). -/
structure Registro where
  nombre : PyVal
  codigo : String
  provincia : String
  hab : Int
  min : Option Int
  max : Option Int
  media : Option ℚ
  fecha : String
  capital : Bool
  deriving Repr

/-- Lines 437-447: the record `guardar_json` builds from one collected
entry. -/
def registroDe (prov : String) (d : DatoMun) : Registro :=
  { nombre := d.municipio, codigo := d.codigo, provincia := prov,
    hab := d.habitantes, min := d.t_min, max := d.t_max,
    media := mediaDe d.t_min d.t_max, fecha := d.fecha,
    capital := d.es_capital }

/-- Lines 430-447: today's fresh records, in province-iteration order. -/
def registrosHoy (datos_por_provincia : List (String × List DatoMun)) :
    List Registro :=
  datos_por_provincia.flatMap fun pd => pd.2.map (registroDe pd.1)

/-- The JSON object `guardar_json` serializes (lines 456-461), minus the
wall-clock `actualizado` timestamp, which no claim touches. -/
structure SalidaJson where
  dias_disponibles : List String
  total_municipios : Nat
  registros : List Registro
  deriving Repr

/-- `guardar_json(datos_por_provincia, json_path, dias_retener)` after the
existing file has been loaded: `registros_existentes` is
`data_anterior.get("registros", [])` (empty for a missing or corrupt
file).  Step 2 drops existing records dated `hoy`, step 3 keeps only
`fecha >= fecha_limite`, step 5 appends today's records, step 6 recomputes
the metadata. -/
def guardar_json (registros_existentes : List Registro)
    (datos_por_provincia : List (String × List DatoMun))
    (hoy fecha_limite : String) : SalidaJson :=
  let sinHoy := registros_existentes.filter fun r => r.fecha != hoy
  let podados := sinHoy.filter fun r => strLe fecha_limite r.fecha
  let hoyNuevos := registrosHoy datos_por_provincia
  let todos := podados ++ hoyNuevos
  { dias_disponibles :=
      ordenarPor strLe ((todos.map fun r => r.fecha).dedup),
    total_municipios := ((todos.map fun r => r.codigo).dedup).length,
    registros := todos }

/-! ## API-key resolution and the fatal-exit decision
(`get_api_key` lines 81-100, `main` lines 469-510) -/

/-- The env-then-file tail of `get_api_key`: the `AEMET_API_KEY`
environment variable stripped (missing = empty), else the key file
stripped if it exists and is non-empty; `Option.none` models the
`sys.exit(1)` branch. -/
def resolverSinCli (env fichero : Option String) : Option String :=
  let e := recortar (env.getD "")
  if e ≠ "" then Option.some e
  else
    match fichero with
    | Option.some contenido =>
      let k := recortar contenido
      if k ≠ "" then Option.some k else Option.none
    | Option.none => Option.none

/-- `get_api_key(cli_key)` proper: a truthy CLI argument wins (stripped),
otherwise the env-then-file fallback above. -/
def get_api_key (cli env fichero : Option String) : Option String :=
  match cli with
  | Option.some c =>
    if c ≠ "" then Option.some (recortar c) else resolverSinCli env fichero
  | Option.none => resolverSinCli env fichero

/-- Lines 498-500 of `main`: after collection, `if not
datos_por_provincia: sys.exit(1)`.  `datos` is the mapping the selected
collection mode returned; `true` = the process exits with status 1
(either `sys.exit(1)` inside `get_api_key` or the empty-mapping check). -/
def mainSaleConError (cli env fichero : Option String)
    (datos : List (String × List DatoMun)) : Bool :=
  match get_api_key cli env fichero with
  | Option.none => true
  | Option.some _ => datos.isEmpty

/-- Total number of temperature records in a collection result. -/
def totalRegistros (datos : List (String × List DatoMun)) : Nat :=
  (datos.map fun pd => pd.2.length).sum

/-- Master-list payload entry for the Madrid municipality. -/
def munMadridPy : PyVal :=
  .dict [("id", .str "id28079"), ("nombre", .str "Madrid"),
         ("num_hab", .str "3223334"), ("altitud", .str "657")]

/-- The grouped Madrid municipality (code 28079 is a flagged capital). -/
def munMadrid : Municipio :=
  { codigo := "28079", nombre := .str "Madrid", habitantes := 3223334,
    altitud := 657, es_capital := true }

/-- A non-capital municipality with the largest population of its
province. -/
def munGrande : Municipio :=
  { codigo := "42004", nombre := .str "Ágreda", habitantes := 10300,
    altitud := 929, es_capital := false }

/-- A small non-capital municipality. -/
def munChico : Municipio :=
  { codigo := "42006", nombre := .str "Alconaba", habitantes := 1500,
    altitud := 1030, es_capital := false }

/-- A flagged provincial capital. -/
def munVitoria : Municipio :=
  { codigo := "01059", nombre := .str "Vitoria-Gasteiz", habitantes := 253672,
    altitud := 525, es_capital := true }

/-- Directory with one capital-less province and one with a flagged
capital, each population-descending. -/
def dirTestigo : List (String × List Municipio) :=
  [("Soria", [munGrande, munChico]), ("Álava", [munVitoria, munChico])]

/-- Directory with a single capital-less province. -/
def dirUnaProv : List (String × List Municipio) := [("Soria", [munGrande])]

/-- Fetch-and-extract oracle that always fails. -/
def consultaNula : String → Option (Option Int × Option Int) :=
  fun _ => Option.none

/-- Fixtures for the concrete seeded runs: one existing record per day. -/
def regSem (f : String) : Registro :=
  { nombre := .str "San Sebastián de los Reyes", codigo := "28134",
    provincia := "Madrid", hab := 93156, min := Option.some 1,
    max := Option.some 7, media := Option.some 4, fecha := f,
    capital := false }

/-- Today's batch entry used by the concrete runs. -/
def datoSem : DatoMun :=
  { municipio := .str "San Sebastián de los Reyes", codigo := "28134",
    provincia := "Madrid", habitantes := 93156, es_capital := false,
    t_min := Option.some 2, t_max := Option.some 9, fecha := "2024-01-15" }

/-- Today's batch (one province). -/
def loteSem : List (String × List DatoMun) := [("Madrid", [datoSem])]

/-- A two-municipality batch (distinct codes) for the idempotence run. -/
def loteDoble : List (String × List DatoMun) :=
  [("Madrid", [datoSem, { datoSem with codigo := "28079" }])]

/-- Existing dataset seeded with records dated 10, 8, 6, 3, 1 days before
2024-01-15, plus that day itself. -/
def semilla7 : List Registro :=
  [regSem "2024-01-05", regSem "2024-01-07", regSem "2024-01-09",
   regSem "2024-01-12", regSem "2024-01-14", regSem "2024-01-15"]

/-- Batch entry with min 10 and max 20. -/
def dato1020 : DatoMun :=
  { datoSem with t_min := Option.some 10, t_max := Option.some 20 }

/-- Batch entry with an absent min. -/
def datoSinMin : DatoMun :=
  { datoSem with t_min := Option.none, t_max := Option.some 20 }

/-! ## Theorems: Python `sorted` model -/

theorem insOrd_perm {α : Type} (le : α → α → Bool) (x : α) (l : List α) :
    List.Perm (insOrd le x l) (x :: l) := by
  induction l with
  | nil => simp [insOrd]
  | cons y ys ih =>
    simp only [insOrd]
    split
    · exact List.Perm.refl _
    · exact (List.Perm.cons y ih).trans (List.Perm.swap x y ys)

theorem ordenarPor_perm {α : Type} (le : α → α → Bool) (l : List α) :
    List.Perm (ordenarPor le l) l := by
  induction l with
  | nil => exact List.Perm.refl _
  | cons x xs ih =>
    exact (insOrd_perm le x (ordenarPor le xs)).trans (List.Perm.cons x ih)

theorem mem_ordenarPor {α : Type} {le : α → α → Bool} {x : α} {l : List α} :
    x ∈ ordenarPor le l ↔ x ∈ l :=
  (ordenarPor_perm le l).mem_iff

/-! ## Helper lemmas about the dataset store -/

theorem fecha_registrosHoy {datos : List (String × List DatoMun)} {hoy : String}
    (h : ∀ pd ∈ datos, ∀ d ∈ pd.2, d.fecha = hoy) :
    ∀ r ∈ registrosHoy datos, r.fecha = hoy := by
  intro r hr
  rw [registrosHoy, List.mem_flatMap] at hr
  obtain ⟨pd, hpd, hr⟩ := hr
  obtain ⟨d, hd, rfl⟩ := List.mem_map.mp hr
  exact h pd hpd d hd

theorem registrosHoy_map_codigo (datos : List (String × List DatoMun)) :
    ((registrosHoy datos).map fun r => r.codigo)
      = datos.flatMap fun pd => pd.2.map fun d => d.codigo := by
  simp only [registrosHoy, List.map_flatMap, List.map_map]
  rfl

/-! ## Claim theorems -/

/-- C1.  Merge idempotence: for every prior persisted dataset and every
batch of today's records, running `guardar_json` twice with the same batch
and the same current date produces a dataset whose records for that date
are exactly the batch's records (the second run replaces, never
duplicates, the first run's records for that date); and when the batch
carries distinct municipality codes, there is exactly one record per
(code, date) pair for that date. -/
theorem guardar_json_idempotente (existentes : List Registro)
    (datos : List (String × List DatoMun)) (hoy lim : String)
    (hfechas : ∀ pd ∈ datos, ∀ d ∈ pd.2, d.fecha = hoy) :
    ((guardar_json (guardar_json existentes datos hoy lim).registros
        datos hoy lim).registros.filter fun r => r.fecha == hoy)
      = registrosHoy datos
    ∧ ((datos.flatMap fun pd => pd.2.map fun d => d.codigo).Nodup →
      (((guardar_json (guardar_json existentes datos hoy lim).registros
          datos hoy lim).registros.filter fun r => r.fecha == hoy).map
            fun r => r.codigo).Nodup) := by
  have hRHf : ∀ r ∈ registrosHoy datos, r.fecha = hoy := fecha_registrosHoy hfechas
  have hreg2 : (guardar_json (guardar_json existentes datos hoy lim).registros
      datos hoy lim).registros
      = ((((existentes.filter fun r => r.fecha != hoy).filter
            fun r => strLe lim r.fecha) ++ registrosHoy datos).filter
          (fun r => r.fecha != hoy)).filter (fun r => strLe lim r.fecha)
        ++ registrosHoy datos := rfl
  have hRH1 : ((registrosHoy datos).filter fun r => r.fecha != hoy) = [] := by
    refine List.filter_eq_nil_iff.mpr fun r hr => ?_
    simp [hRHf r hr]
  have hE1 : (((existentes.filter fun r => r.fecha != hoy).filter
      fun r => strLe lim r.fecha).filter fun r => r.fecha != hoy)
      = ((existentes.filter fun r => r.fecha != hoy).filter
        fun r => strLe lim r.fecha) := by
    refine List.filter_eq_self.mpr fun r hr => ?_
    exact (List.mem_filter.mp (List.mem_filter.mp hr).1).2
  have hE2 : (((existentes.filter fun r => r.fecha != hoy).filter
      fun r => strLe lim r.fecha).filter fun r => strLe lim r.fecha)
      = ((existentes.filter fun r => r.fecha != hoy).filter
        fun r => strLe lim r.fecha) := by
    refine List.filter_eq_self.mpr fun r hr => ?_
    exact (List.mem_filter.mp hr).2
  have hEq : ((((existentes.filter fun r => r.fecha != hoy).filter
      fun r => strLe lim r.fecha) ++ registrosHoy datos).filter
        (fun r => r.fecha != hoy)).filter (fun r => strLe lim r.fecha)
      = ((existentes.filter fun r => r.fecha != hoy).filter
        fun r => strLe lim r.fecha) := by
    rw [List.filter_append, hRH1, hE1, List.append_nil, hE2]
  have hEhoy : (((existentes.filter fun r => r.fecha != hoy).filter
      fun r => strLe lim r.fecha).filter fun r => r.fecha == hoy) = [] := by
    refine List.filter_eq_nil_iff.mpr fun r hr => ?_
    have hne := (List.mem_filter.mp (List.mem_filter.mp hr).1).2
    simp only [bne_iff_ne, ne_eq] at hne
    simp [hne]
  have hRHhoy : ((registrosHoy datos).filter fun r => r.fecha == hoy)
      = registrosHoy datos := by
    refine List.filter_eq_self.mpr fun r hr => ?_
    simp [hRHf r hr]
  have hconc1 : ((guardar_json (guardar_json existentes datos hoy lim).registros
      datos hoy lim).registros.filter fun r => r.fecha == hoy)
      = registrosHoy datos := by
    rw [hreg2, hEq, List.filter_append, hEhoy, hRHhoy, List.nil_append]
  refine ⟨hconc1, fun hnd => ?_⟩
  rw [hconc1, registrosHoy_map_codigo]
  exact hnd

/-- Witness for C1 at a concrete prior dataset and two-record batch. -/
theorem guardar_json_idempotente_testigo :
    ((guardar_json (guardar_json semilla7 loteDoble "2024-01-15"
        "2024-01-08").registros loteDoble "2024-01-15"
        "2024-01-08").registros.filter fun r => r.fecha == "2024-01-15")
      = registrosHoy loteDoble
    ∧ (((guardar_json (guardar_json semilla7 loteDoble "2024-01-15"
        "2024-01-08").registros loteDoble "2024-01-15"
        "2024-01-08").registros.filter fun r => r.fecha == "2024-01-15").map
          fun r => r.codigo).Nodup := by
  have h := guardar_json_idempotente semilla7 loteDoble "2024-01-15"
    "2024-01-08" (by decide)
  exact ⟨h.1, h.2 (by decide)⟩

/-- C2.  Retention pruning: after `guardar_json` (with `fecha_limite` =
today minus the retention window, computed by the source from
`dias_retener=7`) no record in the result is dated strictly before
`fecha_limite`, every existing record dated on or after `fecha_limite`
(other than today's replaced ones) is retained, and the dataset seeded
with records dated 10, 8, 6, 3, 1 days ago plus today yields exactly the
6/3/1-day-old records plus today's fresh batch. -/
theorem guardar_json_retencion (existentes : List Registro)
    (datos : List (String × List DatoMun)) (hoy lim : String)
    (hfechas : ∀ pd ∈ datos, ∀ d ∈ pd.2, d.fecha = hoy)
    (hlim : strLe lim hoy = true) :
    (∀ r ∈ (guardar_json existentes datos hoy lim).registros,
      strLe lim r.fecha = true)
    ∧ (∀ r ∈ existentes, strLe lim r.fecha = true → r.fecha ≠ hoy →
      r ∈ (guardar_json existentes datos hoy lim).registros)
    ∧ (guardar_json semilla7 loteSem "2024-01-15" "2024-01-08").registros
      = [regSem "2024-01-09", regSem "2024-01-12", regSem "2024-01-14"]
        ++ registrosHoy loteSem := by
  refine ⟨fun r hr => ?_, fun r hr hfina hnohoy => ?_, rfl⟩
  · rcases List.mem_append.mp hr with hr | hr
    · exact (List.mem_filter.mp hr).2
    · rw [fecha_registrosHoy hfechas r hr]
      exact hlim
  · refine List.mem_append.mpr (Or.inl ?_)
    refine List.mem_filter.mpr ⟨List.mem_filter.mpr ⟨hr, ?_⟩, hfina⟩
    exact bne_iff_ne.mpr hnohoy

/-- Witness for C2 at the seeded dataset: the 8-day-old cutoff holds for a
retained record, and the 6-day-old record survives the merge. -/
theorem guardar_json_retencion_testigo :
    strLe "2024-01-08" (regSem "2024-01-09").fecha = true
    ∧ regSem "2024-01-09" ∈ (guardar_json semilla7 loteSem "2024-01-15"
      "2024-01-08").registros := by
  have h := guardar_json_retencion semilla7 loteSem "2024-01-15" "2024-01-08"
    (by decide) rfl
  refine ⟨rfl, h.2.1 (regSem "2024-01-09") ?_ rfl (by decide)⟩
  exact List.mem_cons_of_mem _ (List.mem_cons_of_mem _ (List.mem_cons_self _ _))

/-- `round(x, 1)` is the identity on every half-integer: `10 * (s/2)` is
the integer `5*s`, so the rounding step never moves the value. -/
theorem round1_half_int (s : Int) : round1 ((s : ℚ) / 2) = (s : ℚ) / 2 := by
  have h10 : (10 : ℚ) * ((s : ℚ) / 2) = ((5 * s : Int) : ℚ) := by
    push_cast; ring
  have hfloor : ⌊((5 * s : Int) : ℚ)⌋ = 5 * s := Int.floor_intCast _
  rw [round1, h10, roundHalfEven]
  simp only [hfloor]
  rw [if_pos (by rw [show ((5 * s : Int) : ℚ) - ((5 * s : Int) : Int) = 0 by
    push_cast; ring]; norm_num)]
  push_cast
  ring

/-- C8.  Average derivation: every record built by `guardar_json` carries
`media = round((min+max)/2, 1)` when both temperatures are present (and
this rounding is exact on such half-integers), and `media` absent when
either temperature is absent. -/
theorem registro_media (prov : String) (d : DatoMun) :
    (∀ mn mx : Int, d.t_min = Option.some mn → d.t_max = Option.some mx →
      (registroDe prov d).media = Option.some (round1 ((mn + mx : ℚ) / 2))
      ∧ round1 ((mn + mx : ℚ) / 2) = (mn + mx : ℚ) / 2)
    ∧ ((d.t_min = Option.none ∨ d.t_max = Option.none) →
      (registroDe prov d).media = Option.none) := by
  constructor
  · intro mn mx hmn hmx
    constructor
    · show mediaDe d.t_min d.t_max = _
      rw [hmn, hmx, mediaDe]
    · have := round1_half_int (mn + mx)
      rwa [show ((mn + mx : Int) : ℚ) = (mn + mx : ℚ) by push_cast; ring] at this
  · intro h
    show mediaDe d.t_min d.t_max = Option.none
    rcases h with h | h
    · rw [h]; cases d.t_max <;> rfl
    · rw [h]; cases d.t_min <;> rfl

/-- Witness for C8: min 10 and max 20 give exactly 15.0, and an absent min
gives an absent average. -/
theorem registro_media_testigo :
    (registroDe "Madrid" dato1020).media = Option.some 15
    ∧ (registroDe "Madrid" datoSinMin).media = Option.none := by
  constructor
  · have h := (registro_media "Madrid" dato1020).1 10 20 rfl rfl
    rw [h.1, h.2]
    norm_num
  · exact (registro_media "Madrid" datoSinMin).2 (Or.inl rfl)

/-- The date-matching loop leaves both values `None` when every day entry
is inspected and passed over. -/
theorem buscarDia_sin_coincidencia {objetivo : String} :
    ∀ {dias : List PyVal}, (∀ dia ∈ dias, diaNoCoincide objetivo dia) →
      buscarDia objetivo dias = .ok (.none, .none) := by
  intro dias
  induction dias with
  | nil => intro _; rfl
  | cons dia resto ih =>
    intro h
    obtain ⟨kvs, s, rfl, hf, hne⟩ := h dia (List.mem_cons_self _ _)
    have hb : (String.mk (s.data.take 10) == objetivo) = false :=
      beq_eq_false_iff_ne.mpr hne
    simp only [buscarDia, dictGet, hf, pySlice10, pyEq, hb, Bool.false_eq_true,
      if_false]
    exact ih fun d hd => h d (List.mem_cons_of_mem _ hd)

/-- C3 counterexample: a payload with a single day entry dated 2024-01-02
whose temperature block is the list-of-periods shape (Máxima 20, Mínima
10), queried for the absent date 2024-01-01.  The claimed fallback would
return the first day's values (10, 20); the code returns (absent, absent),
because the fallback only reads dict-shaped temperature blocks. -/
theorem extraer_fallback_contraejemplo :
    extraer_temp_dia (cargaDe [diaPeriodos]) "2024-01-01" = .ok (.none, .none)
    ∧ extraer_temp_dia (cargaDe [diaPeriodos]) "2024-01-01"
      ≠ .ok (.int 10, .int 20) := by
  refine ⟨rfl, fun h => ?_⟩
  have h2 : (Except.ok (PyVal.none, PyVal.none) : Except PyErr (PyVal × PyVal))
      = .ok (.int 10, .int 20) := h
  injection h2 with h3
  injection h3 with ha hb
  exact PyVal.noConfusion ha

/-- C3 (amended).  Extractor first-day fallback: for every payload whose
day entries all fail to match the target date, the extractor falls back to
the first listed day, *provided* that day's temperature block is a direct
`{min,max}` dict — it then returns that block's coerced min/max values.  (A
list-of-periods block is not read by the fallback and yields (absent,
absent), per the counterexample.) -/
theorem extraer_fallback_primer_dia (objetivo : String)
    (dias resto : List PyVal) (kvs0 tkvs : List (String × PyVal))
    (hnm : ∀ dia ∈ dias, diaNoCoincide objetivo dia)
    (h0 : dias.head? = Option.some (.dict kvs0))
    (ht : (kvs0.lookup "temperatura").getD (.dict []) = .dict tkvs) :
    extraer_temp_dia
        (.list (.dict [("prediccion", .dict [("dia", .list dias)])] :: resto))
        objetivo
      = .ok (coerceInt ((tkvs.lookup "minima").getD .none),
             coerceInt ((tkvs.lookup "maxima").getD .none)) := by
  obtain ⟨dia0, resto0, rfl⟩ : ∃ d l, dias = d :: l := by
    cases dias with
    | nil => simp at h0
    | cons d l => exact ⟨d, l, rfl⟩
  have hdia0 : dia0 = .dict kvs0 := by simpa using h0
  subst hdia0
  have hred : extraer_temp_dia
      (.list (.dict [("prediccion", .dict [("dia",
        .list (.dict kvs0 :: resto0))])] :: resto)) objetivo
      = conCoercion (trasBusqueda (.list (.dict kvs0 :: resto0))
          (buscarDia objetivo (.dict kvs0 :: resto0))) := rfl
  rw [hred, buscarDia_sin_coincidencia hnm]
  simp only [trasBusqueda, PyVal.isNone, truthy, List.isEmpty_cons,
    Bool.not_false, Bool.and_self, if_true, primerDiaFallback, pyIndex0,
    dictGet, ht, conCoercion]

/-- Witness for C3 (amended) at the spec's example payload: day entries
dated 2024-01-02 and 2024-01-03, target 2024-01-01: the first day's
(10, 20) is returned. -/
theorem extraer_fallback_primer_dia_testigo :
    extraer_temp_dia (cargaDe [diaEj1, diaEj2]) "2024-01-01"
      = .ok (.int 10, .int 20) := by
  have h := extraer_fallback_primer_dia "2024-01-01" [diaEj1, diaEj2] []
    [("fecha", .str "2024-01-02T00:00:00"),
     ("temperatura", .dict [("maxima", .int 20), ("minima", .int 10)])]
    [("maxima", .int 20), ("minima", .int 10)]
    ?_ rfl rfl
  · exact h
  · intro dia hdia
    have hd : dia = diaEj1 ∨ dia = diaEj2 := by
      simpa using hdia
    rcases hd with rfl | rfl
    · exact ⟨_, "2024-01-02T00:00:00", rfl, rfl, by decide⟩
    · exact ⟨_, "2024-01-03T00:00:00", rfl, rfl, by decide⟩

/-- C4: the extractor is *not* total and does *not* turn every uncoercible
value into absent.  The JSON array `[5]` makes `datos[0].get` raise
`AttributeError`, which the `except (IndexError, KeyError, TypeError)`
clause does not catch; and a matched day whose max is the string
`"frío"` comes back as that raw string (the `except` around `int()` keeps
the unconverted value), not as absent. -/
theorem extraer_no_total :
    extraer_temp_dia (.list [.int 5]) "2024-01-01" = .error .attributeError
    ∧ extraer_temp_dia (cargaDe [diaValorMalo]) "2024-01-01"
      = .ok (.none, .str "frío") :=
  ⟨rfl, rfl⟩

/-- The request loop never raises as long as every decoded 200 envelope is
a JSON object. -/
theorem buclePeticion_ok (primero segundo : Nat → HttpOutcome)
    (hp : ∀ i, sobreEsDict (primero i)) :
    ∀ restantes intento pausas, ∃ r,
      (buclePeticion primero segundo intento restantes pausas).resultado
        = .ok r := by
  intro restantes
  induction restantes with
  | zero => exact fun intento pausas => ⟨Option.none, rfl⟩
  | succ n ih =>
    intro intento pausas
    rcases hout : primero intento with _ | ⟨codigo, cuerpo⟩
    · simp only [buclePeticion, hout]
      by_cases hn : n = 0
      · subst hn; exact ⟨Option.none, by simp⟩
      · simpa [hn] using ih _ _
    · simp only [buclePeticion, hout]
      by_cases h429 : codigo = 429
      · simpa [h429] using ih _ _
      · by_cases h200 : codigo = 200
        · subst h200
          rw [if_neg h429, if_neg (fun h => h rfl)]
          cases cuerpo with
          | none => exact ⟨Option.none, rfl⟩
          | some meta =>
            have hs := hp intento
            rw [hout] at hs
            obtain ⟨kvs, rfl⟩ := hs
            cases hpe : pyEq ((kvs.lookup "estado").getD .none) (.int 200) with
            | false => exact ⟨Option.none, by simp [hpe]⟩
            | true =>
              cases htr : truthy ((kvs.lookup "datos").getD .none) with
              | false => exact ⟨Option.none, by simp [hpe, htr]⟩
              | true =>
                rcases hurl : (kvs.lookup "datos").getD .none
                  with _ | m | u | b | xs | dkvs
                -- the six `PyVal` shapes of the data URL; only a string
                -- reaches the second hop, the rest take the retry path
                · rw [hurl] at htr
                  by_cases hn : n = 0
                  · subst hn
                    exact ⟨Option.none, by simp [hpe, htr, hurl]⟩
                  · have := ih (intento + 1) (5 :: pausas)
                    simpa [hpe, htr, hurl, hn] using this
                · rw [hurl] at htr
                  by_cases hn : n = 0
                  · subst hn
                    exact ⟨Option.none, by simp [hpe, htr, hurl]⟩
                  · have := ih (intento + 1) (5 :: pausas)
                    simpa [hpe, htr, hurl, hn] using this
                · rw [hurl] at htr
                  rcases hseg : segundo intento with _ | ⟨codigo2, cuerpo2⟩
                  · by_cases hn : n = 0
                    · subst hn
                      exact ⟨Option.none, by simp [hpe, htr, hurl, hseg]⟩
                    · have := ih (intento + 1) (5 :: pausas)
                      simpa [hpe, htr, hurl, hseg, hn] using this
                  · by_cases h2002 : codigo2 = 200
                    · subst h2002
                      cases cuerpo2 with
                      | none =>
                        exact ⟨Option.none, by simp [hpe, htr, hurl, hseg]⟩
                      | some carga =>
                        exact ⟨Option.some carga,
                          by simp [hpe, htr, hurl, hseg]⟩
                    · exact ⟨Option.none,
                        by simp [hpe, htr, hurl, hseg, h2002]⟩
                · rw [hurl] at htr
                  by_cases hn : n = 0
                  · subst hn
                    exact ⟨Option.none, by simp [hpe, htr, hurl]⟩
                  · have := ih (intento + 1) (5 :: pausas)
                    simpa [hpe, htr, hurl, hn] using this
                · rw [hurl] at htr
                  by_cases hn : n = 0
                  · subst hn
                    exact ⟨Option.none, by simp [hpe, htr, hurl]⟩
                  · have := ih (intento + 1) (5 :: pausas)
                    simpa [hpe, htr, hurl, hn] using this
                · rw [hurl] at htr
                  by_cases hn : n = 0
                  · subst hn
                    exact ⟨Option.none, by simp [hpe, htr, hurl]⟩
                  · have := ih (intento + 1) (5 :: pausas)
                    simpa [hpe, htr, hurl, hn] using this
        · exact ⟨Option.none, by simp [h429, h200]⟩

/-- C5 counterexample: a 200 first-hop response whose body decodes to the
JSON array `[]` makes `meta.get("estado")` raise `AttributeError` — the
claim that `aemet_request` never raises to its caller is false. -/
theorem aemet_request_contraejemplo :
    (aemet_request (fun _ => .response 200 (Option.some (.list [])))
      (fun _ => .netFail)).resultado = .error .attributeError := rfl

/-- C5 (amended).  Remote client failure signalling, for every trace whose
decoded 200 envelopes are JSON objects: `aemet_request` never raises and
`None` is the sole failure signal; on HTTP 429 it sleeps `30*(attempt+1)`
seconds per attempt up to the ceiling of 3 attempts; on any other non-200
status or malformed JSON it returns absent immediately (no retry); on
network failures it retries with 5-second pauses and returns absent after
the 3rd failure.  (A 200 envelope decoding to a non-object raises
`AttributeError`, per the counterexample.) -/
theorem aemet_request_senales (primero segundo : Nat → HttpOutcome) :
    ((∀ i, sobreEsDict (primero i)) →
      ∃ r, (aemet_request primero segundo).resultado = .ok r)
    ∧ ((∀ i, ∃ b, primero i = .response 429 b) →
      aemet_request primero segundo
        = ⟨.ok Option.none, [30, 60, 90], 3⟩)
    ∧ (∀ codigo cuerpo, primero 0 = .response codigo cuerpo →
      codigo ≠ 200 → codigo ≠ 429 →
      aemet_request primero segundo = ⟨.ok Option.none, [], 1⟩)
    ∧ (primero 0 = .response 200 Option.none →
      aemet_request primero segundo = ⟨.ok Option.none, [], 1⟩)
    ∧ ((∀ i, primero i = .netFail) →
      aemet_request primero segundo = ⟨.ok Option.none, [5, 5], 3⟩) := by
  refine ⟨fun hp => buclePeticion_ok primero segundo hp 3 0 [],
    fun h429 => ?_, fun codigo cuerpo h0 hn200 hn429 => ?_, fun h0 => ?_,
    fun hnet => ?_⟩
  · obtain ⟨b0, h0⟩ := h429 0
    obtain ⟨b1, h1⟩ := h429 1
    obtain ⟨b2, h2⟩ := h429 2
    simp [aemet_request, buclePeticion, h0, h1, h2]
  · simp [aemet_request, buclePeticion, h0, hn200, hn429]
  · simp [aemet_request, buclePeticion, h0]
  · simp [aemet_request, buclePeticion, hnet 0, hnet 1, hnet 2]

/-- Witness for C5 at concrete traces: a 404 trace returns without
raising; an all-429 trace backs off 30/60/90 seconds over 3 attempts; an
all-network-failure trace pauses 5 seconds between its retries. -/
theorem aemet_request_senales_testigo :
    (∃ r, (aemet_request (fun _ => .response 404 Option.none)
      (fun _ => .netFail)).resultado = .ok r)
    ∧ aemet_request (fun _ => .response 429 Option.none) (fun _ => .netFail)
      = ⟨.ok Option.none, [30, 60, 90], 3⟩
    ∧ aemet_request (fun _ => .netFail) (fun _ => .netFail)
      = ⟨.ok Option.none, [5, 5], 3⟩ := by
  refine ⟨(aemet_request_senales _ _).1 fun i => trivial, ?_, ?_⟩
  · exact (aemet_request_senales _ _).2.1 fun i => ⟨Option.none, rfl⟩
  · exact (aemet_request_senales (fun _ => .netFail) _).2.2.2.2 fun i => rfl

/-- C6: the claim is right and the code is wrong.  Left: with a malformed
cache file and a failed remote fetch, the stale-cache fallback re-reads
the file with a bare `json.loads`, so the `json.JSONDecodeError`
propagates instead of being treated as empty/missing.  Right: the guarded
first read does tolerate a malformed fresh-looking cache when the fetch
succeeds — the file is ignored and the fetched list is grouped. -/
theorem obtener_municipios_cache_corrupta :
    obtener_municipios (Option.some Option.none) "2024-01-15" .none
      = .error .jsonDecodeError
    ∧ obtener_municipios (Option.some Option.none) "2024-01-15"
        (.list [munMadridPy])
      = .ok (.dict [("Madrid", .list [municipioToPy munMadrid])]) :=
  ⟨rfl, rfl⟩

/-- C9 counterexample: with a resolvable key and a *non-empty* province
mapping containing zero records, `main` does not exit non-zero (the check
is only `if not datos_por_provincia`), contradicting the claim that zero
produced records always exits non-zero. -/
theorem main_salida_contraejemplo :
    mainSaleConError (Option.some "clave") Option.none Option.none
      [("Madrid", [])] = false
    ∧ totalRegistros [("Madrid", [])] = 0 := ⟨rfl, rfl⟩

/-- C9 (amended).  Fatal-exit condition: the program exits non-zero
exactly when no API key is resolvable or the collected province mapping is
empty; a non-empty mapping whose lists are all empty (zero records) does
*not* trigger the exit. -/
theorem main_salida_no_cero (cli env fichero : Option String)
    (datos : List (String × List DatoMun)) :
    (get_api_key cli env fichero = Option.none →
      mainSaleConError cli env fichero datos = true)
    ∧ (datos = [] → mainSaleConError cli env fichero datos = true)
    ∧ (get_api_key cli env fichero ≠ Option.none → datos ≠ [] →
      mainSaleConError cli env fichero datos = false) := by
  refine ⟨fun hk => ?_, fun hd => ?_, fun hk hd => ?_⟩
  · simp [mainSaleConError, hk]
  · subst hd
    cases hk : get_api_key cli env fichero <;> simp [mainSaleConError, hk]
  · cases hkk : get_api_key cli env fichero with
    | none => exact absurd hkk hk
    | some k =>
      cases datos with
      | nil => exact absurd rfl hd
      | cons a l => simp [mainSaleConError, hkk]

/-- Witness for C9 (amended): an empty mapping exits non-zero; a key plus
a non-empty mapping with records does not. -/
theorem main_salida_no_cero_testigo :
    mainSaleConError Option.none Option.none Option.none [] = true
    ∧ mainSaleConError (Option.some "clave") Option.none Option.none
      loteSem = false := by
  refine ⟨(main_salida_no_cero _ _ _ _).2.1 rfl,
    (main_salida_no_cero _ _ _ _).2.2 (by decide) ?_⟩
  intro h
  exact List.noConfusion h

/-- C10.  In capitals-only mode every emitted record carries
`es_capital = true` — the record's flag is the literal `True` of line 390,
not the municipality's own directory flag. -/
theorem capitales_todo_marcado (dir : List (String × List Municipio))
    (consulta : String → Option (Option Int × Option Int)) (hoy prov : String)
    (ds : List DatoMun)
    (hmem : (prov, ds) ∈ obtener_temperaturas_capitales dir consulta hoy) :
    ∀ d ∈ ds, d.es_capital = true := by
  obtain ⟨pm, hpm, heq⟩ := List.mem_map.mp hmem
  have hds : ((seleccionarCapitales pm.2).map
      (construirDatoCapital consulta hoy pm.1)) = ds :=
    congrArg Prod.snd heq
  intro d hd
  rw [← hds] at hd
  obtain ⟨m, hm, rfl⟩ := List.mem_map.mp hd
  rfl

/-- Witness for C10: a province with no flagged capital emits its
fallback highest-population municipality with the flag forced to `true`,
although the municipality's own directory entry says `false`. -/
theorem capitales_todo_marcado_testigo :
    (construirDatoCapital consultaNula "2024-01-15" "Soria"
      munGrande).es_capital = true
    ∧ munGrande.es_capital = false := by
  refine ⟨?_, rfl⟩
  exact capitales_todo_marcado dirUnaProv consultaNula "2024-01-15" "Soria"
    [construirDatoCapital consultaNula "2024-01-15" "Soria" munGrande]
    (List.mem_singleton.mpr rfl) _ (List.mem_singleton.mpr rfl)

/-- C7.  Capital fallback selection: for every province of the directory
whose municipality list is non-empty and sorted population-descending,
capitals-only mode selects exactly one municipality when none is flagged
as capital — the head of the list, whose population is maximal — and
exactly the flagged ones otherwise. -/
theorem capitales_seleccion (dir : List (String × List Municipio))
    (consulta : String → Option (Option Int × Option Int)) (hoy prov : String)
    (ms : List Municipio)
    (hmem : (prov, ms) ∈ dir) (hne : ms ≠ [])
    (hord : ms.Pairwise fun a b => b.habitantes ≤ a.habitantes) :
    ((∀ m ∈ ms, m.es_capital = false) →
      ∃ m0, ms.head? = Option.some m0
        ∧ (prov, [construirDatoCapital consulta hoy prov m0])
            ∈ obtener_temperaturas_capitales dir consulta hoy
        ∧ ∀ m ∈ ms, m.habitantes ≤ m0.habitantes)
    ∧ ((∃ m ∈ ms, m.es_capital = true) →
      (prov, (ms.filter fun m => m.es_capital).map
          (construirDatoCapital consulta hoy prov))
        ∈ obtener_temperaturas_capitales dir consulta hoy) := by
  have hmem' : (prov, ms) ∈ ordenarPor (fun a b => strLe a.1 b.1) dir :=
    mem_ordenarPor.mpr hmem
  have hmapa : (prov, (seleccionarCapitales ms).map
      (construirDatoCapital consulta hoy prov))
      ∈ obtener_temperaturas_capitales dir consulta hoy :=
    List.mem_map_of_mem
      (fun pm => (pm.1, (seleccionarCapitales pm.2).map
        (construirDatoCapital consulta hoy pm.1))) hmem'
  constructor
  · intro hnc
    cases ms with
    | nil => exact absurd rfl hne
    | cons m0 resto =>
      refine ⟨m0, rfl, ?_, ?_⟩
      · have hf : ((m0 :: resto).filter fun m => m.es_capital) = [] :=
          List.filter_eq_nil_iff.mpr fun m hm => by simp [hnc m hm]
        have hsel : seleccionarCapitales (m0 :: resto) = [m0] := by
          simp [seleccionarCapitales, hf]
        rw [hsel] at hmapa
        exact hmapa
      · intro m hm
        rcases List.mem_cons.mp hm with rfl | hm
        · exact le_refl _
        · exact (List.pairwise_cons.mp hord).1 m hm
  · rintro ⟨mc, hmc, hcap⟩
    have hne2 : (ms.filter fun m => m.es_capital) ≠ [] := by
      intro h
      have := List.filter_eq_nil_iff.mp h mc hmc
      simp [hcap] at this
    have hsel : seleccionarCapitales ms = ms.filter fun m => m.es_capital := by
      simp only [seleccionarCapitales]
      rw [if_neg fun hh => hne2 (List.isEmpty_iff.mp hh)]
    rw [hsel] at hmapa
    exact hmapa

/-- Witness for C7: in a directory with a capital-less province (Soria)
and one with a flagged capital (Álava), capitals-only mode selects
Soria's highest-population municipality and Álava's flagged capital. -/
theorem capitales_seleccion_testigo :
    ("Soria", [construirDatoCapital consultaNula "2024-01-15" "Soria"
        munGrande])
      ∈ obtener_temperaturas_capitales dirTestigo consultaNula "2024-01-15"
    ∧ ("Álava", [construirDatoCapital consultaNula "2024-01-15" "Álava"
        munVitoria])
      ∈ obtener_temperaturas_capitales dirTestigo consultaNula
        "2024-01-15" := by
  constructor
  · obtain ⟨m0, hm0, hmem, hmax⟩ :=
      (capitales_seleccion dirTestigo consultaNula "2024-01-15" "Soria"
        [munGrande, munChico] (List.mem_cons_self _ _) (by simp)
        (by decide)).1 (by decide)
    obtain rfl := Option.some.inj hm0
    exact hmem
  · have h := (capitales_seleccion dirTestigo consultaNula "2024-01-15"
      "Álava" [munVitoria, munChico]
      (List.mem_cons_of_mem _ (List.mem_cons_self _ _)) (by simp)
      (by decide)).2 ⟨munVitoria, List.mem_cons_self _ _, rfl⟩
    exact h

end Aemet
